import Mathlib

/-!
Shallow embedding of the terminal Snake game in `src/main.c`.

The game state is a snake (list of grid cells, head first), a food cell,
a current direction, and the loop's control flags.  Randomness (`rand()`)
is modelled as an infinite stream `rng : Nat → Nat` together with an index
of the next value to consume; `rand() % m` becomes `rng k % m`.

Coordinates are window-local: the playable pit is `[1, pit_width] ×
[1, pit_height]` and the globals `pit_width = 40`, `pit_height = 20` match
the C file.
-/

namespace SnakeGame

/-- The `Direction` enum of the C file. -/
inductive Direction
  | UP
  | DOWN
  | LEFT
  | RIGHT
deriving DecidableEq, Repr

/-- The `Point` struct: a grid cell `(x, y)` with `int` coordinates. -/
structure Point where
  x : Int
  y : Int
deriving DecidableEq, Repr

/-- Default cell used where C would read uninitialized/out-of-range memory. -/
def origin : Point := ⟨0, 0⟩

/-- The `Snake` struct.  `body` holds the `length` live cells head first
(the C code keeps a `Point *body` array plus a separate `length` field;
here the list is exactly the live prefix, so `length = body.length`).
`capacity` records the size of the `malloc`ed array. -/
structure Snake where
  body : List Point
  max_length : Nat
  capacity : Nat
  dir : Direction
deriving DecidableEq, Repr

/-- Global `pit_height = 20` (playable rows). -/
def pit_height : Nat := 20

/-- Global `pit_width = 40` (playable cols). -/
def pit_width : Nat := 40

/-- `move_interval` in `game_loop`: the snake moves every 2nd frame. -/
def move_interval : Nat := 2

/-- `max_attempts` in `place_food`. -/
def max_attempts : Nat := 100

/-- `init_snake()`: length 3 at the pit centre, facing right,
`max_length` = half the pit perimeter, body array allocated with
`max_length` cells. -/
def init_snake (pw ph : Nat) : Snake :=
  let perimeter := 2 * (ph + pw)
  let ml := perimeter / 2
  let center_y : Int := (ph / 2 : Nat) + 1
  let center_x : Int := (pw / 2 : Nat) + 1
  { body := [⟨center_x, center_y⟩, ⟨center_x - 1, center_y⟩, ⟨center_x - 2, center_y⟩],
    max_length := ml,
    capacity := ml,
    dir := Direction.RIGHT }

/-- `is_snake_position(x, y)`: does any live body cell sit at `(x, y)`? -/
def is_snake_position (s : Snake) (x y : Int) : Bool :=
  s.body.any (fun p => p.x == x && p.y == y)

/-- Whether a cell is occupied by the snake (C calls
`is_snake_position(food.x, food.y)`). -/
def occ_cell (s : Snake) (p : Point) : Bool :=
  is_snake_position s p.x p.y

/-- The `j`-th candidate cell drawn by `place_food` when the next unread
random value has index `k`: each attempt consumes two `rand()` values,
first `y = rand() % ph + 1`, then `x = rand() % pw + 1`. -/
def food_draw (pw ph : Nat) (rng : Nat → Nat) (k j : Nat) : Point :=
  ⟨((rng (k + 2 * j + 1) % pw : Nat) : Int) + 1,
   ((rng (k + 2 * j) % ph : Nat) : Int) + 1⟩

/-- The do-while loop of `place_food`.  `fuel` is the number of re-draws
still allowed (`max_attempts -  attempts` after the current draw): with
`fuel = 0` the current draw is accepted regardless of occupancy.
Returns the food cell and the index of the next unread random value. -/
def place_food_go (pw ph : Nat) (s : Snake) (rng : Nat → Nat) (k : Nat) :
    Nat → Point × Nat
  | 0 =>
    let y : Int := ((rng k % ph : Nat) : Int) + 1
    let x : Int := ((rng (k + 1) % pw : Nat) : Int) + 1
    (⟨x, y⟩, k + 2)
  | fuel + 1 =>
    let y : Int := ((rng k % ph : Nat) : Int) + 1
    let x : Int := ((rng (k + 1) % pw : Nat) : Int) + 1
    if is_snake_position s x y then
      place_food_go pw ph s rng (k + 2) fuel
    else
      (⟨x, y⟩, k + 2)

/-- `place_food()`: draw cells until one is free of the snake, giving up
(and accepting an occupied cell) after `max_attempts = 100` draws. -/
def place_food (pw ph : Nat) (s : Snake) (rng : Nat → Nat) (k : Nat) : Point × Nat :=
  place_food_go pw ph s rng k (max_attempts - 1)

/-- `check_collision()`: head outside the pit `[1,pw] × [1,ph]`, or head
equal to some strictly-later body cell. -/
def check_collision (pw ph : Nat) (s : Snake) : Bool :=
  let head := s.body.headD origin
  if head.x ≤ 0 ∨ head.x > (pw : Int) ∨ head.y ≤ 0 ∨ head.y > (ph : Int) then
    true
  else
    (s.body.drop 1).any (fun p => head.x == p.x && head.y == p.y)

/-- `check_win()`: `snake.length >= snake.max_length`. -/
def check_win (s : Snake) : Bool :=
  decide (s.max_length ≤ s.body.length)

/-- One step of the body-shifting loop of `update_snake`:
`for (i = length - 1; i > 0; i--) body[i] = body[i-1];`.
`shift_iter b i` performs the writes at indices `i, i-1, …, 1`. -/
def shift_iter (b : List Point) : Nat → List Point
  | 0 => b
  | i + 1 => shift_iter (b.set (i + 1) (b.getD i origin)) i

/-- The whole body-shifting loop, starting at index `length - 1`. -/
def shift_body (b : List Point) : List Point :=
  shift_iter b (b.length - 1)

/-- The head move of `update_snake`'s `switch (snake.dir)`. -/
def move_head (d : Direction) (p : Point) : Point :=
  match d with
  | Direction.UP => { p with y := p.y - 1 }
  | Direction.DOWN => { p with y := p.y + 1 }
  | Direction.LEFT => { p with x := p.x - 1 }
  | Direction.RIGHT => { p with x := p.x + 1 }

/-- Apply `move_head` to the cell at index 0 (the C code mutates
`snake.body[0]` in place). -/
def move_head_cell (d : Direction) : List Point → List Point
  | [] => []
  | h :: t => move_head d h :: t

/-- The mutable globals `snake` and `food` as one record. -/
structure GState where
  snake : Snake
  food : Point
deriving DecidableEq, Repr

/-- `update_snake()`: save the tail, shift every body cell to its
predecessor's position, move the head one cell in the current direction;
if the new head sits on the food, grow by re-appending the saved tail and
respawn the food.  Returns the new state and next random index. -/
def update_snake (pw ph : Nat) (g : GState) (rng : Nat → Nat) (k : Nat) :
    GState × Nat :=
  let s := g.snake
  let tail := s.body.getLastD origin
  let moved := move_head_cell s.dir (shift_body s.body)
  let newHead := moved.headD origin
  if newHead.x = g.food.x ∧ newHead.y = g.food.y then
    let grown : Snake := { s with body := moved ++ [tail] }
    let pf := place_food pw ph grown rng k
    ({ snake := grown, food := pf.1 }, pf.2)
  else
    ({ snake := { s with body := moved }, food := g.food }, k)

/-- The body after `update_snake`'s shift loop and head move, before any
growth. -/
def post_move_body (g : GState) : List Point :=
  move_head_cell g.snake.dir (shift_body g.snake.body)

/-- The head cell `update_snake` compares against the food. -/
def new_head (g : GState) : Point :=
  (post_move_body g).headD origin

/-- The snake produced by `update_snake` when it grows. -/
def grown_snake (g : GState) : Snake :=
  { g.snake with body := post_move_body g ++ [g.snake.body.getLastD origin] }

/-- The snake produced by `update_snake` when it does not grow. -/
def moved_snake (g : GState) : Snake :=
  { g.snake with body := post_move_body g }

/-- The key presses `game_loop` distinguishes (`KEY_UP` …, `'q'`/`'Q'`,
anything else including no key). -/
inductive Key
  | key_up
  | key_down
  | key_left
  | key_right
  | key_q
  | key_other
deriving DecidableEq, Repr

/-- The input `switch` of `game_loop`: an arrow key sets the direction
unless it is the reverse of the current one; anything else leaves it. -/
def apply_input (d : Direction) (k : Key) : Direction :=
  match k with
  | Key.key_up => if d ≠ Direction.DOWN then Direction.UP else d
  | Key.key_down => if d ≠ Direction.UP then Direction.DOWN else d
  | Key.key_left => if d ≠ Direction.RIGHT then Direction.LEFT else d
  | Key.key_right => if d ≠ Direction.LEFT then Direction.RIGHT else d
  | Key.key_q => d
  | Key.key_other => d

/-- The arrow key requesting a given direction. -/
def arrow_key (d : Direction) : Key :=
  match d with
  | Direction.UP => Key.key_up
  | Direction.DOWN => Key.key_down
  | Direction.LEFT => Key.key_left
  | Direction.RIGHT => Key.key_right

/-- The reverse of a direction. -/
def opposite (d : Direction) : Direction :=
  match d with
  | Direction.UP => Direction.DOWN
  | Direction.DOWN => Direction.UP
  | Direction.LEFT => Direction.RIGHT
  | Direction.RIGHT => Direction.LEFT

/-- Control state of `game_loop`: `Running` while the loop iterates,
`GameOver` / `Victory` after the corresponding `break`, `Quit` when the
loop ends because `q` was pressed with no collision and no win. -/
inductive Phase
  | Running
  | GameOver
  | Victory
  | Quit
deriving DecidableEq, Repr

/-- A snapshot of `game_loop`'s state at the top of the `while` body:
the globals plus the loop-local `frame_count` and the random index. -/
structure LoopState where
  phase : Phase
  snake : Snake
  food : Point
  frame_count : Nat
  ridx : Nat
deriving DecidableEq, Repr

/-- The `update_snake()` call a running tick performs: the direction has
already been updated from the pressed key. -/
def moved_state (key : Key) (rng : Nat → Nat) (s : LoopState) : GState × Nat :=
  update_snake pit_width pit_height
    { snake := { s.snake with dir := apply_input s.snake.dir key }, food := s.food }
    rng s.ridx

/-- One iteration of `game_loop`'s `while` body with the given key press
(`key_other` when `getch()` returned no key).  Note that in the C code a
`q` press only clears `running`; the same iteration still increments
`frame_count` and may move the snake, and a collision or win detected in
that very iteration still `break`s to GameOver / Victory before the loop
condition sees `running == false`.  Terminal phases never change: after a
`break` the function only renders and waits for `q`. -/
def tick (key : Key) (rng : Nat → Nat) (s : LoopState) : LoopState :=
  match s.phase with
  | Phase.Running =>
    let dir' := apply_input s.snake.dir key
    let fc := s.frame_count + 1
    if move_interval ≤ fc then
      let r := moved_state key rng s
      { phase :=
          if check_collision pit_width pit_height r.1.snake then Phase.GameOver
          else if check_win r.1.snake then Phase.Victory
          else if key = Key.key_q then Phase.Quit
          else Phase.Running,
        snake := r.1.snake,
        food := r.1.food,
        frame_count := 0,
        ridx := r.2 }
    else
      { phase := if key = Key.key_q then Phase.Quit else Phase.Running,
        snake := { s.snake with dir := dir' },
        food := s.food,
        frame_count := fc,
        ridx := s.ridx }
  | _ => s

/-- The state on entering `game_loop`: `init_snake()` then the initial
`place_food()` (which consumes random values starting at index 0). -/
def init_state (rng : Nat → Nat) : LoopState :=
  let s0 := init_snake pit_width pit_height
  let pf := place_food pit_width pit_height s0 rng 0
  { phase := Phase.Running, snake := s0, food := pf.1, frame_count := 0, ridx := pf.2 }

/-- The loop state after `n` iterations, for a given stream of key
presses and random values. -/
def run (inputs : Nat → Key) (rng : Nat → Nat) : Nat → LoopState
  | 0 => init_state rng
  | n + 1 => tick (inputs n) rng (run inputs rng n)

/-- Output channels of the process. -/
inductive Channel
  | stdout
  | stderr
deriving DecidableEq, Repr

/-- What `main` does before (possibly) starting the game. -/
structure MainResult where
  exit_code : Nat
  output : List (Channel × String)
  started : Bool
deriving DecidableEq, Repr

/-- The terminal-too-small message `main` prints (via `printf`, hence on
stdout). -/
def too_small_message : String :=
  "Terminal too small! Need at least " ++ toString (pit_height + 2) ++ "x"
    ++ toString (pit_width + 2) ++ " (including borders)"

/-- `main`: ignores its command-line arguments; if the terminal is
smaller than the pit plus padding it prints the message with `printf`
(stdout) and returns 1 without starting the game, otherwise the game runs
and `main` returns 0. -/
def main_run (args : List String) (max_y max_x : Nat) : MainResult :=
  let _ := args
  if max_y < pit_height + 4 ∨ max_x < pit_width + 4 then
    { exit_code := 1, output := [(Channel.stdout, too_small_message)], started := false }
  else
    { exit_code := 0, output := [], started := true }

/-! ## Theorems -/

/-! ### Helper lemmas about the body-shifting loop -/

theorem shift_iter_length (b : List Point) (m : Nat) : (shift_iter b m).length = b.length := by
  induction m generalizing b with
  | zero => rfl
  | succ i ih => rw [shift_iter, ih, List.length_set]

theorem shift_body_length (b : List Point) : (shift_body b).length = b.length :=
  shift_iter_length b _

theorem move_head_cell_length (d : Direction) (l : List Point) :
    (move_head_cell d l).length = l.length := by
  cases l <;> rfl

/-- After the writes at indices `m, …, 1`, position `j` holds the old
cell `j - 1` when `1 ≤ j ≤ m`, and is untouched otherwise. -/
theorem shift_iter_get? (b : List Point) (m : Nat) (hm : m < b.length) (j : Nat) :
    (shift_iter b m).get? j = if 1 ≤ j ∧ j ≤ m then b.get? (j - 1) else b.get? j := by
  induction m generalizing b j with
  | zero =>
    rw [shift_iter, if_neg (by omega)]
  | succ i ih =>
    rw [shift_iter]
    have hb' : (b.set (i + 1) (b.getD i origin)).length = b.length := List.length_set ..
    have hi : i < (b.set (i + 1) (b.getD i origin)).length := by omega
    rw [ih _ hi j]
    have hgi : b.get? i = some (b.getD i origin) := by
      rw [List.getD_eq_get b origin (show i < b.length by omega)]
      exact List.get?_eq_get _
    by_cases h1 : 1 ≤ j ∧ j ≤ i
    · rw [if_pos h1, if_pos (by omega), List.get?_set]
      rw [if_neg (by omega)]
    · by_cases h2 : j = i + 1
      · subst h2
        rw [if_neg h1, if_pos (by omega), List.get?_set, if_pos rfl,
          List.get?_eq_get hm, Nat.add_sub_cancel, hgi]
        rfl
      · rw [if_neg h1, if_neg (by omega), List.get?_set, if_neg (by omega)]

theorem shift_body_get? (b : List Point) (j : Nat) (hj : 0 < b.length) :
    (shift_body b).get? j =
      if 1 ≤ j ∧ j ≤ b.length - 1 then b.get? (j - 1) else b.get? j :=
  shift_iter_get? b (b.length - 1) (by omega) j

theorem move_head_cell_get?_zero (d : Direction) (l : List Point) :
    (move_head_cell d l).get? 0 = (l.get? 0).map (move_head d) := by
  cases l <;> rfl

theorem move_head_cell_get?_succ (d : Direction) (l : List Point) (i : Nat) :
    (move_head_cell d l).get? (i + 1) = l.get? (i + 1) := by
  cases l <;> rfl

theorem post_move_body_length (g : GState) :
    (post_move_body g).length = g.snake.body.length := by
  rw [post_move_body, move_head_cell_length, shift_body_length]

theorem post_move_body_get?_zero (g : GState) (h : 0 < g.snake.body.length) :
    (post_move_body g).get? 0 =
      some (move_head g.snake.dir (g.snake.body.headD origin)) := by
  rw [post_move_body, move_head_cell_get?_zero, shift_body_get? _ _ h,
    if_neg (by omega), List.get?_zero, List.headD_eq_head?]
  obtain ⟨p, t, hpt⟩ := List.exists_cons_of_ne_nil (List.ne_nil_of_length_pos h)
  rw [hpt]
  rfl

theorem new_head_eq (g : GState) (h : 0 < g.snake.body.length) :
    new_head g = move_head g.snake.dir (g.snake.body.headD origin) := by
  rw [new_head, List.headD_eq_head?, ← List.get?_zero, post_move_body_get?_zero g h]
  rfl

theorem post_move_body_get?_succ (g : GState) (i : Nat) (h : 0 < g.snake.body.length) :
    (post_move_body g).get? (i + 1) =
      if i + 1 ≤ g.snake.body.length - 1 then g.snake.body.get? i
      else g.snake.body.get? (i + 1) := by
  rw [post_move_body, move_head_cell_get?_succ, shift_body_get? _ _ h]
  by_cases hle : i + 1 ≤ g.snake.body.length - 1
  · rw [if_pos (by omega), if_pos hle]
    rfl
  · rw [if_neg (by omega), if_neg hle]

/-- `update_snake` in the branch where the new head sits on the food. -/
theorem update_snake_eat (pw ph : Nat) (g : GState) (rng : Nat → Nat) (k : Nat)
    (h : (new_head g).x = g.food.x ∧ (new_head g).y = g.food.y) :
    update_snake pw ph g rng k =
      ({ snake := grown_snake g, food := (place_food pw ph (grown_snake g) rng k).1 },
       (place_food pw ph (grown_snake g) rng k).2) := by
  simp only [update_snake, grown_snake, post_move_body, new_head] at h ⊢
  rw [if_pos h]

/-- `update_snake` in the branch where no food is eaten. -/
theorem update_snake_noeat (pw ph : Nat) (g : GState) (rng : Nat → Nat) (k : Nat)
    (h : ¬((new_head g).x = g.food.x ∧ (new_head g).y = g.food.y)) :
    update_snake pw ph g rng k =
      ({ snake := moved_snake g, food := g.food }, k) := by
  simp only [update_snake, moved_snake, post_move_body, new_head] at h ⊢
  rw [if_neg h]

/-- The updated body agrees with the shifted-and-moved body on all
indices below the old length (growth only appends past them). -/
theorem update_snake_body_get? (pw ph : Nat) (g : GState) (rng : Nat → Nat) (k : Nat)
    (j : Nat) (hj : j < g.snake.body.length) :
    (update_snake pw ph g rng k).1.snake.body.get? j = (post_move_body g).get? j := by
  by_cases hc : (new_head g).x = g.food.x ∧ (new_head g).y = g.food.y
  · rw [update_snake_eat pw ph g rng k hc]
    show (grown_snake g).body.get? j = (post_move_body g).get? j
    simp only [grown_snake]
    exact List.get?_append (by rw [post_move_body_length]; omega)
  · rw [update_snake_noeat pw ph g rng k hc]
    rfl

/-- C1: `update_snake` with length `n ≥ 1` and direction `D` sets the
head to the old head moved one cell in `D`'s direction (`y-1` for Up,
`y+1` for Down, `x-1` for Left, `x+1` for Right), and sets every body
cell `i` with `1 ≤ i < n` to the previous position of cell `i-1`. -/
theorem update_snake_move_spec (pw ph : Nat) (g : GState) (rng : Nat → Nat) (k n : Nat)
    (hn : g.snake.body.length = n) (h1 : 1 ≤ n) :
    ((g.snake.dir = Direction.UP →
        (update_snake pw ph g rng k).1.snake.body.get? 0 =
          some ⟨(g.snake.body.headD origin).x, (g.snake.body.headD origin).y - 1⟩) ∧
     (g.snake.dir = Direction.DOWN →
        (update_snake pw ph g rng k).1.snake.body.get? 0 =
          some ⟨(g.snake.body.headD origin).x, (g.snake.body.headD origin).y + 1⟩) ∧
     (g.snake.dir = Direction.LEFT →
        (update_snake pw ph g rng k).1.snake.body.get? 0 =
          some ⟨(g.snake.body.headD origin).x - 1, (g.snake.body.headD origin).y⟩) ∧
     (g.snake.dir = Direction.RIGHT →
        (update_snake pw ph g rng k).1.snake.body.get? 0 =
          some ⟨(g.snake.body.headD origin).x + 1, (g.snake.body.headD origin).y⟩)) ∧
    (∀ i, 1 ≤ i → i < n →
      (update_snake pw ph g rng k).1.snake.body.get? i = g.snake.body.get? (i - 1)) := by
  have hpos : 0 < g.snake.body.length := by omega
  have hhead : (update_snake pw ph g rng k).1.snake.body.get? 0 =
      some (move_head g.snake.dir (g.snake.body.headD origin)) := by
    rw [update_snake_body_get? pw ph g rng k 0 hpos, post_move_body_get?_zero g hpos]
  refine ⟨⟨fun hd => ?_, fun hd => ?_, fun hd => ?_, fun hd => ?_⟩, fun i hi1 hi2 => ?_⟩
  · rw [hhead, hd]; rfl
  · rw [hhead, hd]; rfl
  · rw [hhead, hd]; rfl
  · rw [hhead, hd]; rfl
  · rw [update_snake_body_get? pw ph g rng k i (by omega)]
    have hi : i = (i - 1) + 1 := by omega
    rw [hi, post_move_body_get?_succ g (i - 1) hpos, if_pos (by omega)]
    congr 1

/-- Witness for C1: a length-2 snake moving right; cell 1 takes the old
head position. -/
theorem update_snake_move_spec_witness :
    1 ≤ 2 ∧
      (update_snake 40 20
          { snake := { body := [⟨3, 4⟩, ⟨2, 4⟩], max_length := 60, capacity := 60,
                       dir := Direction.RIGHT },
            food := ⟨9, 9⟩ } (fun _ => 0) 0).1.snake.body.get? 1 =
        ({ snake := { body := [⟨3, 4⟩, ⟨2, 4⟩], max_length := 60, capacity := 60,
                      dir := Direction.RIGHT },
           food := ⟨9, 9⟩ } : GState).snake.body.get? 0 :=
  ⟨by decide,
    (update_snake_move_spec 40 20
      { snake := { body := [⟨3, 4⟩, ⟨2, 4⟩], max_length := 60, capacity := 60,
                   dir := Direction.RIGHT },
        food := ⟨9, 9⟩ } (fun _ => 0) 0 2 rfl (by decide)).2 1 (by decide) (by decide)⟩

theorem point_eq_iff (p q : Point) : p = q ↔ p.x = q.x ∧ p.y = q.y := by
  cases p
  cases q
  simp

/-- C3: when the moved head lands on the food, `update_snake` grows the
snake by exactly one cell, the new last body cell is the old tail, and
the food is respawned by `place_food` (run against the grown snake);
otherwise length and food are unchanged. -/
theorem update_snake_growth_spec (pw ph : Nat) (g : GState) (rng : Nat → Nat) (k : Nat)
    (h : 1 ≤ g.snake.body.length) :
    (new_head g = g.food →
      (update_snake pw ph g rng k).1.snake.body.length = g.snake.body.length + 1 ∧
      (update_snake pw ph g rng k).1.snake.body.getLast? = g.snake.body.getLast? ∧
      (update_snake pw ph g rng k).1.food =
        (place_food pw ph (update_snake pw ph g rng k).1.snake rng k).1) ∧
    (new_head g ≠ g.food →
      (update_snake pw ph g rng k).1.snake.body.length = g.snake.body.length ∧
      (update_snake pw ph g rng k).1.food = g.food) := by
  have hlast : g.snake.body.getLast? = some (g.snake.body.getLastD origin) := by
    have hne : g.snake.body ≠ [] := List.ne_nil_of_length_pos (by omega)
    rw [List.getLastD_eq_getLast?, List.getLast?_eq_getLast _ hne]
    rfl
  constructor
  · intro hc
    have hc' : (new_head g).x = g.food.x ∧ (new_head g).y = g.food.y :=
      (point_eq_iff _ _).mp hc
    rw [update_snake_eat pw ph g rng k hc']
    refine ⟨?_, ?_, rfl⟩
    · show (grown_snake g).body.length = g.snake.body.length + 1
      simp only [grown_snake]
      rw [List.length_append, post_move_body_length]
      rfl
    · show (grown_snake g).body.getLast? = g.snake.body.getLast?
      simp only [grown_snake]
      rw [List.getLast?_concat, hlast]
  · intro hc
    have hc' : ¬((new_head g).x = g.food.x ∧ (new_head g).y = g.food.y) := by
      rw [← point_eq_iff]
      exact hc
    rw [update_snake_noeat pw ph g rng k hc']
    refine ⟨?_, rfl⟩
    show (moved_snake g).body.length = g.snake.body.length
    simp only [moved_snake]
    exact post_move_body_length g

/-- Witness for C3: a length-2 snake whose head moves right onto the
food grows to length 3. -/
theorem update_snake_growth_spec_witness :
    1 ≤ ({ snake := { body := [⟨3, 4⟩, ⟨2, 4⟩], max_length := 60, capacity := 60,
                      dir := Direction.RIGHT },
           food := ⟨4, 4⟩ } : GState).snake.body.length ∧
    new_head { snake := { body := [⟨3, 4⟩, ⟨2, 4⟩], max_length := 60, capacity := 60,
                          dir := Direction.RIGHT },
               food := ⟨4, 4⟩ } =
      ({ snake := { body := [⟨3, 4⟩, ⟨2, 4⟩], max_length := 60, capacity := 60,
                    dir := Direction.RIGHT },
         food := ⟨4, 4⟩ } : GState).food ∧
    (update_snake 40 20
        { snake := { body := [⟨3, 4⟩, ⟨2, 4⟩], max_length := 60, capacity := 60,
                     dir := Direction.RIGHT },
          food := ⟨4, 4⟩ } (fun _ => 0) 0).1.snake.body.length =
      ({ snake := { body := [⟨3, 4⟩, ⟨2, 4⟩], max_length := 60, capacity := 60,
                    dir := Direction.RIGHT },
         food := ⟨4, 4⟩ } : GState).snake.body.length + 1 :=
  ⟨by decide, by decide,
    ((update_snake_growth_spec 40 20
      { snake := { body := [⟨3, 4⟩, ⟨2, 4⟩], max_length := 60, capacity := 60,
                   dir := Direction.RIGHT },
        food := ⟨4, 4⟩ } (fun _ => 0) 0 (by decide)).1 (by decide)).1⟩

/-- C2: `check_collision` is true iff the head lies outside
`[1, pw] × [1, ph]` or equals some body cell at index `i ≥ 1`. -/
theorem check_collision_iff (pw ph : Nat) (s : Snake) (h : 0 < s.body.length) :
    check_collision pw ph s = true ↔
      (((s.body.headD origin).x ≤ 0 ∨ (s.body.headD origin).x > (pw : Int) ∨
        (s.body.headD origin).y ≤ 0 ∨ (s.body.headD origin).y > (ph : Int)) ∨
       ∃ i, 1 ≤ i ∧ i < s.body.length ∧ s.body.get? i = some (s.body.headD origin)) := by
  rw [check_collision]
  by_cases hw : (s.body.headD origin).x ≤ 0 ∨ (s.body.headD origin).x > (pw : Int) ∨
      (s.body.headD origin).y ≤ 0 ∨ (s.body.headD origin).y > (ph : Int)
  · rw [if_pos hw]
    simp only [hw, true_or]
  · rw [if_neg hw]
    simp only [hw, false_or]
    rw [List.any_eq_true]
    constructor
    · rintro ⟨p, hp, hpe⟩
      have hhp : s.body.headD origin = p := by
        rw [Bool.and_eq_true, beq_iff_eq, beq_iff_eq] at hpe
        exact (point_eq_iff _ p).mpr hpe
      obtain ⟨m, hm⟩ := List.mem_iff_get?.mp hp
      rw [List.get?_drop] at hm
      have hlt : 1 + m < s.body.length := by
        obtain ⟨hl, -⟩ := List.get?_eq_some.mp hm
        omega
      exact ⟨1 + m, by omega, hlt, by rw [hm, hhp]⟩
    · rintro ⟨i, hi1, hi2, hie⟩
      refine ⟨s.body.headD origin, ?_, ?_⟩
      · refine List.mem_iff_get?.mpr ⟨i - 1, ?_⟩
        rw [List.get?_drop]
        have hi : 1 + (i - 1) = i := by omega
        rw [hi]
        exact hie
      · rw [Bool.and_eq_true, beq_iff_eq, beq_iff_eq]
        exact ⟨rfl, rfl⟩

/-- Witness for C2: a single-cell snake with its head past the right
wall collides. -/
theorem check_collision_iff_witness :
    0 < ({ body := [⟨41, 10⟩], max_length := 60, capacity := 60,
           dir := Direction.RIGHT } : Snake).body.length ∧
    check_collision 40 20
      { body := [⟨41, 10⟩], max_length := 60, capacity := 60, dir := Direction.RIGHT } = true :=
  ⟨by decide,
    (check_collision_iff 40 20
        { body := [⟨41, 10⟩], max_length := 60, capacity := 60, dir := Direction.RIGHT }
        (by decide)).mpr (Or.inl (by decide))⟩

/-! ### Helper lemmas about food placement -/

theorem food_draw_shift (pw ph : Nat) (rng : Nat → Nat) (k j : Nat) :
    food_draw pw ph rng (k + 2) j = food_draw pw ph rng k (j + 1) := by
  unfold food_draw
  have h1 : k + 2 + 2 * j = k + 2 * (j + 1) := by ring
  rw [h1]

theorem food_draw_mem (pw ph : Nat) (hw : 0 < pw) (hh : 0 < ph)
    (rng : Nat → Nat) (k j : Nat) :
    1 ≤ (food_draw pw ph rng k j).x ∧ (food_draw pw ph rng k j).x ≤ (pw : Int) ∧
    1 ≤ (food_draw pw ph rng k j).y ∧ (food_draw pw ph rng k j).y ≤ (ph : Int) := by
  simp only [food_draw]
  have h1 : rng (k + 2 * j + 1) % pw < pw := Nat.mod_lt _ hw
  have h2 : rng (k + 2 * j) % ph < ph := Nat.mod_lt _ hh
  refine ⟨by omega, by omega, by omega, by omega⟩

theorem place_food_go_eq_draw (pw ph : Nat) (s : Snake) (rng : Nat → Nat) :
    ∀ fuel k, ∃ j, j ≤ fuel ∧
      (place_food_go pw ph s rng k fuel).1 = food_draw pw ph rng k j := by
  intro fuel
  induction fuel with
  | zero => exact fun k => ⟨0, Nat.le_refl 0, rfl⟩
  | succ fuel ih =>
    intro k
    rw [place_food_go]
    by_cases hc : is_snake_position s (((rng (k + 1) % pw : Nat) : Int) + 1)
        (((rng k % ph : Nat) : Int) + 1) = true
    · rw [if_pos hc]
      obtain ⟨j, hj, he⟩ := ih (k + 2)
      exact ⟨j + 1, by omega, by rw [← food_draw_shift]; exact he⟩
    · rw [if_neg hc]
      exact ⟨0, by omega, rfl⟩

theorem place_food_go_first (pw ph : Nat) (s : Snake) (rng : Nat → Nat) :
    ∀ fuel k j, j ≤ fuel →
      (∀ i, i < j → occ_cell s (food_draw pw ph rng k i) = true) →
      occ_cell s (food_draw pw ph rng k j) = false →
      (place_food_go pw ph s rng k fuel).1 = food_draw pw ph rng k j := by
  intro fuel
  induction fuel with
  | zero =>
    intro k j hj _ _
    have hj0 : j = 0 := by omega
    subst hj0
    rfl
  | succ fuel ih =>
    intro k j hj hall hfree
    rw [place_food_go]
    cases j with
    | zero =>
      have hc : is_snake_position s (((rng (k + 1) % pw : Nat) : Int) + 1)
          (((rng k % ph : Nat) : Int) + 1) = false := hfree
      rw [if_neg (by rw [hc]; exact Bool.false_ne_true)]
      rfl
    | succ j =>
      have hc : is_snake_position s (((rng (k + 1) % pw : Nat) : Int) + 1)
          (((rng k % ph : Nat) : Int) + 1) = true := hall 0 (by omega)
      rw [if_pos hc, ← Nat.succ_eq_add_one, ← food_draw_shift]
      refine ih (k + 2) j (by omega) (fun i hi => ?_) ?_
      · rw [food_draw_shift]
        exact hall (i + 1) (by omega)
      · rw [food_draw_shift]
        exact hfree

theorem place_food_go_all (pw ph : Nat) (s : Snake) (rng : Nat → Nat) :
    ∀ fuel k,
      (∀ j, j ≤ fuel → occ_cell s (food_draw pw ph rng k j) = true) →
      (place_food_go pw ph s rng k fuel).1 = food_draw pw ph rng k fuel := by
  intro fuel
  induction fuel with
  | zero => exact fun k _ => rfl
  | succ fuel ih =>
    intro k hall
    rw [place_food_go]
    have hc : is_snake_position s (((rng (k + 1) % pw : Nat) : Int) + 1)
        (((rng k % ph : Nat) : Int) + 1) = true := hall 0 (by omega)
    rw [if_pos hc, ← Nat.succ_eq_add_one, ← food_draw_shift]
    refine ih (k + 2) (fun j hj => ?_)
    rw [food_draw_shift]
    exact hall (j + 1) (by omega)

/-- C7: `place_food` draws candidate cells (`rand() % dim + 1` in each
coordinate, so always inside `[1, pw] × [1, ph]`); the result is the
first unoccupied draw if one occurs among the 100 attempts, and the
100th draw — occupied or not — if all 100 are occupied; in every case
the food lies in the playable rectangle. -/
theorem place_food_spec (pw ph : Nat) (hw : 0 < pw) (hh : 0 < ph) (s : Snake)
    (rng : Nat → Nat) (k : Nat) :
    (1 ≤ (place_food pw ph s rng k).1.x ∧ (place_food pw ph s rng k).1.x ≤ (pw : Int) ∧
     1 ≤ (place_food pw ph s rng k).1.y ∧ (place_food pw ph s rng k).1.y ≤ (ph : Int)) ∧
    (∀ j, j ≤ max_attempts - 1 →
      (∀ i, i < j → occ_cell s (food_draw pw ph rng k i) = true) →
      occ_cell s (food_draw pw ph rng k j) = false →
      (place_food pw ph s rng k).1 = food_draw pw ph rng k j) ∧
    ((∀ j, j ≤ max_attempts - 1 → occ_cell s (food_draw pw ph rng k j) = true) →
      (place_food pw ph s rng k).1 = food_draw pw ph rng k (max_attempts - 1)) := by
  refine ⟨?_, ?_, ?_⟩
  · obtain ⟨j, -, he⟩ := place_food_go_eq_draw pw ph s rng (max_attempts - 1) k
    rw [place_food, he]
    exact food_draw_mem pw ph hw hh rng k j
  · intro j hj hall hfree
    exact place_food_go_first pw ph s rng (max_attempts - 1) k j hj hall hfree
  · intro hall
    exact place_food_go_all pw ph s rng (max_attempts - 1) k hall

/-- Witness for C7: with a constant-zero random stream and a snake away
from `(1,1)`, the first draw `(1,1)` is free and becomes the food. -/
theorem place_food_spec_witness :
    (0 < 40 ∧ 0 < 20) ∧
    (place_food 40 20
        { body := [⟨5, 5⟩], max_length := 60, capacity := 60, dir := Direction.RIGHT }
        (fun _ => 0) 0).1 =
      food_draw 40 20 (fun _ => 0) 0 0 :=
  ⟨⟨by decide, by decide⟩,
    (place_food_spec 40 20 (by decide) (by decide)
        { body := [⟨5, 5⟩], max_length := 60, capacity := 60, dir := Direction.RIGHT }
        (fun _ => 0) 0).2.1 0 (by decide) (fun i hi => absurd hi (by omega)) (by decide)⟩

/-! ### Helper lemmas about the game loop -/

theorem update_snake_length_cases (pw ph : Nat) (g : GState) (rng : Nat → Nat) (k : Nat) :
    (update_snake pw ph g rng k).1.snake.body.length = g.snake.body.length ∨
    (update_snake pw ph g rng k).1.snake.body.length = g.snake.body.length + 1 := by
  by_cases hc : (new_head g).x = g.food.x ∧ (new_head g).y = g.food.y
  · right
    rw [update_snake_eat pw ph g rng k hc]
    show (grown_snake g).body.length = g.snake.body.length + 1
    simp only [grown_snake]
    rw [List.length_append, post_move_body_length]
    rfl
  · left
    rw [update_snake_noeat pw ph g rng k hc]
    show (moved_snake g).body.length = g.snake.body.length
    simp only [moved_snake]
    exact post_move_body_length g

theorem update_snake_max (pw ph : Nat) (g : GState) (rng : Nat → Nat) (k : Nat) :
    (update_snake pw ph g rng k).1.snake.max_length = g.snake.max_length := by
  by_cases hc : (new_head g).x = g.food.x ∧ (new_head g).y = g.food.y
  · rw [update_snake_eat pw ph g rng k hc]
    rfl
  · rw [update_snake_noeat pw ph g rng k hc]
    rfl

theorem moved_state_length_cases (key : Key) (rng : Nat → Nat) (s : LoopState) :
    (moved_state key rng s).1.snake.body.length = s.snake.body.length ∨
    (moved_state key rng s).1.snake.body.length = s.snake.body.length + 1 :=
  update_snake_length_cases pit_width pit_height
    { snake := { s.snake with dir := apply_input s.snake.dir key }, food := s.food }
    rng s.ridx

theorem moved_state_max (key : Key) (rng : Nat → Nat) (s : LoopState) :
    (moved_state key rng s).1.snake.max_length = s.snake.max_length :=
  update_snake_max pit_width pit_height
    { snake := { s.snake with dir := apply_input s.snake.dir key }, food := s.food }
    rng s.ridx

/-- A running tick that reaches the movement threshold performs the
update and then picks the next phase: collision first, then win, then
quit, else keep running. -/
theorem tick_running_move (key : Key) (rng : Nat → Nat) (s : LoopState)
    (hs : s.phase = Phase.Running) (hf : move_interval ≤ s.frame_count + 1) :
    tick key rng s =
      { phase :=
          if check_collision pit_width pit_height (moved_state key rng s).1.snake then
            Phase.GameOver
          else if check_win (moved_state key rng s).1.snake then Phase.Victory
          else if key = Key.key_q then Phase.Quit
          else Phase.Running,
        snake := (moved_state key rng s).1.snake,
        food := (moved_state key rng s).1.food,
        frame_count := 0,
        ridx := (moved_state key rng s).2 } := by
  obtain ⟨phase, snake, food, fc, ridx⟩ := s
  simp only at hs
  subst hs
  simp only [tick, moved_state]
  rw [if_pos hf]

/-- A running tick below the movement threshold only records the key's
direction and advances the frame counter. -/
theorem tick_running_skip (key : Key) (rng : Nat → Nat) (s : LoopState)
    (hs : s.phase = Phase.Running) (hf : ¬(move_interval ≤ s.frame_count + 1)) :
    tick key rng s =
      { phase := if key = Key.key_q then Phase.Quit else Phase.Running,
        snake := { s.snake with dir := apply_input s.snake.dir key },
        food := s.food,
        frame_count := s.frame_count + 1,
        ridx := s.ridx } := by
  obtain ⟨phase, snake, food, fc, ridx⟩ := s
  simp only at hs
  subst hs
  simp only [tick]
  rw [if_neg hf]

/-- Ticks do nothing once the loop has left the `Running` phase. -/
theorem tick_not_running (key : Key) (rng : Nat → Nat) (s : LoopState)
    (hs : s.phase ≠ Phase.Running) : tick key rng s = s := by
  obtain ⟨phase, snake, food, fc, ridx⟩ := s
  cases phase with
  | Running => exact absurd rfl hs
  | GameOver => rfl
  | Victory => rfl
  | Quit => rfl

theorem tick_length_mono (key : Key) (rng : Nat → Nat) (s : LoopState) :
    s.snake.body.length ≤ (tick key rng s).snake.body.length := by
  by_cases hs : s.phase = Phase.Running
  · by_cases hf : move_interval ≤ s.frame_count + 1
    · rw [tick_running_move key rng s hs hf]
      show s.snake.body.length ≤ (moved_state key rng s).1.snake.body.length
      rcases moved_state_length_cases key rng s with h | h <;> omega
    · rw [tick_running_skip key rng s hs hf]
  · rw [tick_not_running key rng s hs]

/-- The loop-state invariant behind C4: `max_length` is the constant 60
of the 40×20 pit, the length never exceeds it, and while the loop is
still running the length is strictly below it. -/
def INV (s : LoopState) : Prop :=
  s.snake.max_length = pit_width + pit_height ∧
  s.snake.body.length ≤ s.snake.max_length ∧
  (s.phase = Phase.Running → s.snake.body.length < s.snake.max_length)

theorem INV_init (rng : Nat → Nat) : INV (init_state rng) := by
  refine ⟨rfl, ?_, fun _ => ?_⟩
  · show (init_snake pit_width pit_height).body.length ≤
      (init_snake pit_width pit_height).max_length
    decide
  · show (init_snake pit_width pit_height).body.length <
      (init_snake pit_width pit_height).max_length
    decide

theorem INV_tick (key : Key) (rng : Nat → Nat) (s : LoopState) (h : INV s) :
    INV (tick key rng s) := by
  obtain ⟨hm, hle, hlt⟩ := h
  by_cases hs : s.phase = Phase.Running
  · by_cases hf : move_interval ≤ s.frame_count + 1
    · rw [tick_running_move key rng s hs hf]
      have hcases := moved_state_length_cases key rng s
      have hmax := moved_state_max key rng s
      have hlt' := hlt hs
      refine ⟨?_, ?_, ?_⟩
      · show (moved_state key rng s).1.snake.max_length = pit_width + pit_height
        rw [hmax]
        exact hm
      · show (moved_state key rng s).1.snake.body.length ≤
          (moved_state key rng s).1.snake.max_length
        rw [hmax]
        omega
      · intro hrun
        simp only at hrun
        show (moved_state key rng s).1.snake.body.length <
          (moved_state key rng s).1.snake.max_length
        by_cases hcol : check_collision pit_width pit_height (moved_state key rng s).1.snake
        · rw [if_pos hcol] at hrun
          exact absurd hrun (by decide)
        · rw [if_neg hcol] at hrun
          by_cases hwin : check_win (moved_state key rng s).1.snake
          · rw [if_pos hwin] at hrun
            exact absurd hrun (by decide)
          · rw [check_win, decide_eq_true_iff] at hwin
            omega
    · rw [tick_running_skip key rng s hs hf]
      refine ⟨hm, hle, fun _ => hlt hs⟩
  · rw [tick_not_running key rng s hs]
    exact ⟨hm, hle, hlt⟩

theorem INV_run (inputs : Nat → Key) (rng : Nat → Nat) :
    ∀ n, INV (run inputs rng n) := by
  intro n
  induction n with
  | zero => exact INV_init rng
  | succ n ih => exact INV_tick (inputs n) rng (run inputs rng n) ih

/-- C4: along every execution of the game loop from the initialized
state, the snake's length never exceeds `max_length`, and it is
non-decreasing from each tick to the next. -/
theorem length_mono_and_bounded (inputs : Nat → Key) (rng : Nat → Nat) (n : Nat) :
    (run inputs rng n).snake.body.length ≤ (run inputs rng n).snake.max_length ∧
    (run inputs rng n).snake.body.length ≤ (run inputs rng (n + 1)).snake.body.length := by
  refine ⟨(INV_run inputs rng n).2.1, ?_⟩
  exact tick_length_mono (inputs n) rng (run inputs rng n)

/-- C8: a running tick that moves the snake checks collision first (a
collision yields GameOver even if the win condition also holds), then
the win condition (Victory when the length reached `max_length` with no
collision); GameOver and Victory are absorbing — a tick in either phase
changes nothing, so no further advance occurs. -/
theorem loop_transition_spec (key : Key) (rng : Nat → Nat) (s : LoopState) :
    (s.phase = Phase.Running → move_interval ≤ s.frame_count + 1 →
      (check_collision pit_width pit_height (moved_state key rng s).1.snake = true →
        (tick key rng s).phase = Phase.GameOver) ∧
      (check_collision pit_width pit_height (moved_state key rng s).1.snake = false →
        check_win (moved_state key rng s).1.snake = true →
        (tick key rng s).phase = Phase.Victory)) ∧
    (s.phase = Phase.GameOver → tick key rng s = s) ∧
    (s.phase = Phase.Victory → tick key rng s = s) := by
  refine ⟨fun hs hf => ⟨fun hc => ?_, fun hc hwin => ?_⟩, fun hs => ?_, fun hs => ?_⟩
  · rw [tick_running_move key rng s hs hf]
    show (if check_collision pit_width pit_height (moved_state key rng s).1.snake then
        Phase.GameOver
      else if check_win (moved_state key rng s).1.snake then Phase.Victory
      else if key = Key.key_q then Phase.Quit else Phase.Running) = Phase.GameOver
    rw [if_pos (by rw [hc])]
  · rw [tick_running_move key rng s hs hf]
    show (if check_collision pit_width pit_height (moved_state key rng s).1.snake then
        Phase.GameOver
      else if check_win (moved_state key rng s).1.snake then Phase.Victory
      else if key = Key.key_q then Phase.Quit else Phase.Running) = Phase.Victory
    rw [if_neg (by rw [hc]; exact Bool.false_ne_true), if_pos (by rw [hwin])]
  · exact tick_not_running key rng s (by rw [hs]; intro hcon; exact Phase.noConfusion hcon)
  · exact tick_not_running key rng s (by rw [hs]; intro hcon; exact Phase.noConfusion hcon)

/-- Witness for C8: a running state one frame before the threshold whose
snake runs head-first into the right wall transitions to GameOver. -/
theorem loop_transition_spec_witness :
    ({ phase := Phase.Running,
       snake := { body := [⟨40, 10⟩], max_length := 60, capacity := 60,
                  dir := Direction.RIGHT },
       food := ⟨5, 5⟩, frame_count := 1, ridx := 0 } : LoopState).phase = Phase.Running ∧
    (tick Key.key_other (fun _ => 0)
        { phase := Phase.Running,
          snake := { body := [⟨40, 10⟩], max_length := 60, capacity := 60,
                     dir := Direction.RIGHT },
          food := ⟨5, 5⟩, frame_count := 1, ridx := 0 }).phase = Phase.GameOver :=
  ⟨rfl,
    ((loop_transition_spec Key.key_other (fun _ => 0)
        { phase := Phase.Running,
          snake := { body := [⟨40, 10⟩], max_length := 60, capacity := 60,
                     dir := Direction.RIGHT },
          food := ⟨5, 5⟩, frame_count := 1, ridx := 0 }).1 rfl (by decide)).1 (by decide)⟩

/-- C5: assuming `length ≤ max_length`, `check_win()` returns true iff
`length = max_length`. -/
theorem check_win_iff (s : Snake) (h : s.body.length ≤ s.max_length) :
    check_win s = true ↔ s.body.length = s.max_length := by
  unfold check_win
  rw [decide_eq_true_iff]
  omega

/-- Witness for C5 at a concrete snake whose length equals its
`max_length`. -/
theorem check_win_iff_witness :
    (init_snake 3 0).body.length ≤ (init_snake 3 0).max_length ∧
      (check_win (init_snake 3 0) = true ↔
        (init_snake 3 0).body.length = (init_snake 3 0).max_length) :=
  ⟨by decide, check_win_iff (init_snake 3 0) (by decide)⟩

/-- C6: a requested direction is dropped exactly when it is the reverse
of the current one, and adopted otherwise; the operation is total (no
error value exists). -/
theorem set_direction_spec :
    ∀ (d r : Direction), apply_input d (arrow_key r) = if r = opposite d then d else r := by
  intro d r
  cases d <;> cases r <;> rfl

/-- C9: `init_snake` builds a length-3 snake, its three cells
horizontally adjacent on the centre row with the head rightmost at the
centre column, facing right, with `max_length = w + h` (half the
perimeter `2*(w+h)`) and the body array allocated for `max_length`
cells. -/
theorem init_snake_spec : ∀ (pw ph : Nat),
    (init_snake pw ph).body =
      [⟨((pw / 2 : Nat) : Int) + 1, ((ph / 2 : Nat) : Int) + 1⟩,
       ⟨((pw / 2 : Nat) : Int) + 1 - 1, ((ph / 2 : Nat) : Int) + 1⟩,
       ⟨((pw / 2 : Nat) : Int) + 1 - 2, ((ph / 2 : Nat) : Int) + 1⟩] ∧
    (init_snake pw ph).body.length = 3 ∧
    (init_snake pw ph).dir = Direction.RIGHT ∧
    (init_snake pw ph).max_length = pw + ph ∧
    (init_snake pw ph).capacity = (init_snake pw ph).max_length := by
  intro pw ph
  unfold init_snake
  refine ⟨rfl, rfl, rfl, ?_, rfl⟩
  show 2 * (ph + pw) / 2 = pw + ph
  omega

/-- C10 counterexample: with a 10×10 terminal the startup check fails
with exit code 1 and does print a message, but no part of the output goes
to stderr (the C code uses `printf`, i.e. stdout), refuting the claim
that the message is printed to stderr. -/
theorem main_msg_channel_counterexample :
    (main_run [] 10 10).exit_code = 1 ∧
    (main_run [] 10 10).output.length = 1 ∧
    (main_run [] 10 10).output.all (fun m => m.1 ≠ Channel.stderr) = true := by
  constructor
  · rfl
  · exact ⟨rfl, by decide⟩

/-- C10 (amended): the program ignores its arguments; on a too-small
terminal it prints the message to stdout (not stderr) and exits with code
1 without starting the game; otherwise the game starts and the process
exits with code 0. -/
theorem main_run_spec : ∀ (args : List String) (my mx : Nat),
    ((my < pit_height + 4 ∨ mx < pit_width + 4) →
      (main_run args my mx).exit_code = 1 ∧
      (main_run args my mx).output = [(Channel.stdout, too_small_message)] ∧
      (main_run args my mx).started = false) ∧
    (¬(my < pit_height + 4 ∨ mx < pit_width + 4) →
      (main_run args my mx).exit_code = 0 ∧
      (main_run args my mx).output = [] ∧
      (main_run args my mx).started = true) ∧
    main_run args my mx = main_run [] my mx := by
  intro args my mx
  refine ⟨fun h => ?_, fun h => ?_, ?_⟩
  · simp [main_run, h]
  · simp [main_run, h]
  · simp [main_run]

/-- Witness for C10 at a concrete too-small terminal and a nonempty
argument list. -/
theorem main_run_spec_witness :
    (10 < pit_height + 4 ∨ 10 < pit_width + 4) ∧
    ((main_run ["x"] 10 10).exit_code = 1 ∧
      (main_run ["x"] 10 10).output = [(Channel.stdout, too_small_message)] ∧
      (main_run ["x"] 10 10).started = false) :=
  ⟨by decide, (main_run_spec ["x"] 10 10).1 (by decide)⟩

end SnakeGame
